import Mathlib

/-!
Verification development for the ACDbot reconciliation core
(`handle_issue.py` and `poll_zoom_recordings.py`).

The Python scripts are shallowly embedded: the time-extraction regexes are
embedded as deterministic scanners over `List Char` that mirror the
backtracking behaviour of the concrete patterns in the source, Python
`datetime.strptime` validation is embedded as explicit calendar checks,
and the two entry points are embedded as pure functions from an injected
provider environment and the mapping-store content to a result trace
(provider calls, file saves, posted comments, caught exceptions).
Python exceptions are modelled by an explicit error type; `try/except`
blocks in the source become explicit branches.
-/

/-! ## Character-level helpers (Python `re` semantics, ASCII fragment) -/

def isPySpace (c : Char) : Bool :=
  c = ' ' || c = '\t' || c = '\n' || c = '\r' || c = '\x0b' || c = '\x0c'

def isAsciiLetter (c : Char) : Bool :=
  ('a' ≤ c && c ≤ 'z') || ('A' ≤ c && c ≤ 'Z')

def isAsciiDigit (c : Char) : Bool :=
  '0' ≤ c && c ≤ '9'

/-- Python `\w` (ASCII fragment): letters, digits, underscore. -/
def isWordChar (c : Char) : Bool :=
  isAsciiLetter c || isAsciiDigit c || c = '_'

def lowerChar (c : Char) : Char :=
  if 'A' ≤ c && c ≤ 'Z' then Char.ofNat (c.toNat + 32) else c

def natOfDigits (ds : List Char) : Nat :=
  ds.foldl (fun a c => a * 10 + (c.toNat - '0'.toNat)) 0

/-- Case-insensitive literal match: if the lowered pattern is a prefix of the
input (compared lowered), return the rest of the input. -/
def ciStartsWith : List Char → List Char → Option (List Char)
  | [], cs => some cs
  | _, [] => none
  | p :: ps, c :: cs => if lowerChar c = lowerChar p then ciStartsWith ps cs else none

/-- `\s+` : require at least one Python whitespace char, then consume the run. -/
def reqSpaces1 : List Char → Option (List Char)
  | [] => none
  | c :: t => if isPySpace c then some (t.dropWhile isPySpace) else none

/-- `,?` : consume one optional comma. -/
def dropComma : List Char → List Char
  | ',' :: t => t
  | cs => cs

def listStarts : List Char → List Char → Bool
  | [], _ => true
  | _, [] => false
  | p :: ps, c :: cs => p = c && listStarts ps cs

def strContainsAux : List Char → List Char → Bool
  | pat, [] => listStarts pat []
  | pat, c :: t => listStarts pat (c :: t) || strContainsAux pat t

/-- Whether `pat` occurs as a contiguous substring of `s`. -/
def strContains (s pat : String) : Bool := strContainsAux pat.toList s.toList

/-! ## The date/time pattern of `parse_issue_for_time` (handle_issue.py:214-227)

```
\[? (?:(?:Mon|Tue|Wed|Thu|Fri|Sat|Sun)\s+)? (?P<month>[A-Za-z]{3,9})\s+
(?P<day>\d{1,2}),?\s+ (?P<year>\d{4}),?\s+ (?P<hour>\d{1,2}):(?P<minute>\d{2})
(?:-(?P<end_hour>\d{1,2}):(?P<end_minute>\d{2}))? \s*UTC \]?
```
compiled with IGNORECASE.  At a fixed start position the pattern is
deterministic up to the two optional groups, whose greedy preference and
failure propagation are reproduced below (a shorter month / day / hour
candidate is always followed by another letter or digit, so only the
maximal runs can be followed by the required whitespace or colon; a `-`
after the minutes that is not followed by a well-formed end time makes the
whole position fail because `\s*UTC` cannot start at `-`). -/

structure DateGroups where
  month : String
  day : Nat
  year : Nat
  hour : Nat
  minute : Nat
  endTime : Option (Nat × Nat)
deriving Repr, DecidableEq

def matchFromMonth (cs : List Char) : Option DateGroups :=
  let p1 := cs.span isAsciiLetter
  let mon := p1.1
  if mon.length < 3 || 9 < mon.length then none else
  match reqSpaces1 p1.2 with
  | none => none
  | some r2 =>
    let p2 := r2.span isAsciiDigit
    if p2.1.length = 0 || 2 < p2.1.length then none else
    match reqSpaces1 (dropComma p2.2) with
    | none => none
    | some r5 =>
      let p3 := r5.span isAsciiDigit
      if p3.1.length ≠ 4 then none else
      match reqSpaces1 (dropComma p3.2) with
      | none => none
      | some r8 =>
        let p4 := r8.span isAsciiDigit
        if p4.1.length = 0 || 2 < p4.1.length then none else
        match p4.2 with
        | ':' :: r10 =>
          let p5 := r10.span isAsciiDigit
          if p5.1.length ≠ 2 then none else
          let endRes : Option (Option (Nat × Nat) × List Char) :=
            match p5.2 with
            | '-' :: r12 =>
              let p6 := r12.span isAsciiDigit
              if p6.1.length = 0 || 2 < p6.1.length then none else
              match p6.2 with
              | ':' :: r14 =>
                let p7 := r14.span isAsciiDigit
                if p7.1.length ≠ 2 then none
                else some (some (natOfDigits p6.1, natOfDigits p7.1), p7.2)
              | _ => none
            | rest => some (none, rest)
          match endRes with
          | none => none
          | some (endT, r16) =>
            match ciStartsWith "utc".toList (r16.dropWhile isPySpace) with
            | some _ => some { month := String.mk mon, day := natOfDigits p2.1,
                               year := natOfDigits p3.1, hour := natOfDigits p4.1,
                               minute := natOfDigits p5.1, endTime := endT }
            | none => none
        | _ => none

def dowNames : List String := ["mon", "tue", "wed", "thu", "fri", "sat", "sun"]

def matchDateAt (cs : List Char) : Option DateGroups :=
  let cs1 := match cs with | '[' :: t => t | _ => cs
  let withDow : Option DateGroups :=
    match cs1 with
    | a :: b :: c :: rest =>
      if dowNames.contains (String.mk [lowerChar a, lowerChar b, lowerChar c]) then
        match reqSpaces1 rest with
        | some r => matchFromMonth r
        | none => none
      else none
    | _ => none
  withDow <|> matchFromMonth cs1

/-- `re.search` for the date pattern: leftmost successful start position. -/
def searchDateFrom : List Char → Option DateGroups
  | [] => matchDateAt []
  | c :: t =>
    match matchDateAt (c :: t) with
    | some g => some g
    | none => searchDateFrom t

def searchDate (cs : List Char) : Option DateGroups := searchDateFrom cs

/-! ## Duration regexes (handle_issue.py:256-264)

Primary: `(?i)duration(?:\s*(?:in)?\s*minutes)?[:\s-]*(\d+)\s*(?:minutes|min|m)?\b`
Fallback: `(?m)^\s*-\s*(\d+)\s*(?:minutes|min|m)?\b` -/

/-- The tail `\s*(?:minutes|min|m)?\b` after the captured digits; the
character preceding `cs` is a digit (a word char).  Accepts iff some
backtracking choice of the star / optional unit satisfies the boundary. -/
def tailBoundaryOk (cs : List Char) : Bool :=
  let sp := (cs.takeWhile isPySpace).length
  if 0 < sp then true
  else
    let unitOk (u : String) : Bool :=
      match ciStartsWith u.toList cs with
      | some rest =>
        match rest with
        | [] => true
        | c :: _ => !isWordChar c
      | none => false
    unitOk "minutes" || unitOk "min" || unitOk "m" ||
      (match cs with | [] => true | c :: _ => !isWordChar c)

/-- `[:\s-]*(\d+)` followed by the unit/boundary tail.  The char class
cannot contain digits, and a non-maximal digit capture is always followed
by another digit which fails the tail, so both stars are deterministic. -/
def afterDigitsCapture (cs : List Char) : Option Nat :=
  let cls (c : Char) : Bool := c = ':' || c = '-' || isPySpace c
  let cs1 := cs.dropWhile cls
  let p := cs1.span isAsciiDigit
  if p.1.length = 0 then none
  else if tailBoundaryOk p.2 then some (natOfDigits p.1) else none

def matchDurationAt (cs : List Char) : Option Nat :=
  match ciStartsWith "duration".toList cs with
  | none => none
  | some cs0 =>
    let branchA : Option Nat :=
      let a := cs0.dropWhile isPySpace
      match ciStartsWith "in".toList a with
      | some a2 =>
        let b := a2.dropWhile isPySpace
        match ciStartsWith "minutes".toList b with
        | some b2 => afterDigitsCapture b2
        | none => none
      | none => none
    let branchB : Option Nat :=
      let a := cs0.dropWhile isPySpace
      match ciStartsWith "minutes".toList a with
      | some a2 => afterDigitsCapture a2
      | none => none
    branchA <|> branchB <|> afterDigitsCapture cs0

def searchDurationFrom : List Char → Option Nat
  | [] => matchDurationAt []
  | c :: t =>
    match matchDurationAt (c :: t) with
    | some n => some n
    | none => searchDurationFrom t

def searchDuration (cs : List Char) : Option Nat := searchDurationFrom cs

def matchDashAt (cs : List Char) : Option Nat :=
  let cs1 := cs.dropWhile isPySpace
  match cs1 with
  | '-' :: r =>
    let r1 := r.dropWhile isPySpace
    let p := r1.span isAsciiDigit
    if p.1.length = 0 then none
    else if tailBoundaryOk p.2 then some (natOfDigits p.1) else none
  | _ => none

/-- `re.search` with MULTILINE `^`: try the dash pattern at the string start
and after every newline, leftmost first. -/
def searchDashFrom : Bool → List Char → Option Nat
  | atStart, cs =>
    match (if atStart then matchDashAt cs else none) with
    | some n => some n
    | none =>
      match cs with
      | [] => none
      | c :: t => searchDashFrom (c = '\n') t

def searchDash (cs : List Char) : Option Nat := searchDashFrom true cs

/-! ## `datetime.strptime` model for `"%B %d %Y %H:%M"` / `"%b %d %Y %H:%M"` -/

def monthsFull : List String :=
  ["january", "february", "march", "april", "may", "june", "july",
   "august", "september", "october", "november", "december"]

def monthsAbbr : List String :=
  ["jan", "feb", "mar", "apr", "may", "jun", "jul", "aug", "sep", "oct", "nov", "dec"]

def lowerStr (s : String) : String := String.mk (s.toList.map lowerChar)

def monthLookup : List String → Nat → String → Option Nat
  | [], _, _ => none
  | name :: rest, i, s => if name = s then some i else monthLookup rest (i + 1) s

/-- `%B` month matching (case-insensitive, full names). -/
def monthFull (s : String) : Option Nat := monthLookup monthsFull 1 (lowerStr s)

/-- `%b` month matching (case-insensitive, abbreviated names). -/
def monthAbbr (s : String) : Option Nat := monthLookup monthsAbbr 1 (lowerStr s)

def isLeapYear (y : Nat) : Bool := (y % 4 = 0 && y % 100 ≠ 0) || y % 400 = 0

def daysInMonth (y m : Nat) : Nat :=
  if m = 2 then (if isLeapYear y then 29 else 28)
  else if m = 4 || m = 6 || m = 9 || m = 11 then 30 else 31

/-- The validation `datetime(...)` performs on the strptime fields. -/
def validDMYHM (y mo d h mi : Nat) : Bool :=
  1 ≤ y && 1 ≤ d && d ≤ daysInMonth y mo && h ≤ 23 && mi ≤ 59

def pad2 (n : Nat) : String := if n < 10 then "0" ++ toString n else toString n

def pad4 (n : Nat) : String :=
  if n < 10 then "000" ++ toString n
  else if n < 100 then "00" ++ toString n
  else if n < 1000 then "0" ++ toString n
  else toString n

/-- `start_dt.isoformat() + "Z"` for a datetime with zero seconds. -/
def isoZ (y mo d h mi : Nat) : String :=
  (pad4 y ++ "-" ++ pad2 mo ++ "-" ++ pad2 d ++ "T" ++ pad2 h ++ ":" ++ pad2 mi ++ ":00").push 'Z'

/-- Lines 242-251: build `"{month} {day} {year} {hour}:{minute}"` and parse it
with `%B` then, on failure, `%b`; success yields the ISO string with the
trailing zone marker. -/
def strptimeStart (g : DateGroups) : Option String :=
  match monthFull g.month with
  | some mo =>
    if validDMYHM g.year mo g.day g.hour g.minute
    then some (isoZ g.year mo g.day g.hour g.minute) else none
  | none =>
    match monthAbbr g.month with
    | some mo =>
      if validDMYHM g.year mo g.day g.hour g.minute
      then some (isoZ g.year mo g.day g.hour g.minute) else none
    | none => none

/-- Lines 273-284: parse the end time (same month/day/year), require it to be
strictly after the start, and return the whole-minute difference. -/
def computeEndDuration (g : DateGroups) (e : Nat × Nat) : Except String Int :=
  if 23 < e.1 ∨ 59 < e.2 then .error "Unable to parse the end time."
  else
    let s := g.hour * 60 + g.minute
    let en := e.1 * 60 + e.2
    if en ≤ s then .error "End time must be after start time."
    else .ok (Int.ofNat (en - s))

/-- `parse_issue_for_time` (handle_issue.py:203-287).  A raised `ValueError`
is modelled as `.error msg`. -/
def parse_issue_for_time (issueBody : String) : Except String (String × Int) :=
  let cs := issueBody.toList
  match searchDate cs with
  | none => .error "Missing or invalid date/time format."
  | some g =>
    match strptimeStart g with
    | none => .error "Unable to parse the start time."
    | some startIso =>
      match searchDuration cs with
      | some n => .ok (startIso, Int.ofNat n)
      | none =>
        match searchDash cs with
        | some n => .ok (startIso, Int.ofNat n)
        | none =>
          match g.endTime with
          | some e =>
            match computeEndDuration g e with
            | .ok d => .ok (startIso, d)
            | .error m => .error m
          | none => .error "Missing or invalid duration format. Provide duration in minutes after the date/time."

/-! ## Mapping Store data model

The persisted JSON file maps meeting-id strings to either a structured
record (a JSON object) or a legacy raw scalar.  Python `dict.get` on a
missing key returns `None`, so record fields are `Option`s; `.get` on a
raw scalar raises `AttributeError`. -/

inductive PyVal
  | int (i : Int)
  | str (s : String)
deriving Repr, DecidableEq

structure Record where
  discourse_topic_id : Option PyVal := none
  issue_title : Option String := none
  start_time : Option String := none
  duration : Option Int := none
  issue_number : Option Int := none
  meeting_id : Option String := none
  youtube_upload_processed : Option Bool := none
  transcript_processed : Option Bool := none
  upload_attempt_count : Option Int := none
  transcript_attempt_count : Option Int := none
  calendar_event_id : Option String := none
deriving Repr, DecidableEq

inductive Entry
  | scalar (v : PyVal)
  | dict (r : Record)
deriving Repr, DecidableEq

/-- The mapping file as an insertion-ordered association list (Python dicts
preserve insertion order; keys are unique). -/
abbrev Mapping := List (String × Entry)

/-- Python `mapping[k]` / `mapping.get(k)` lookup. -/
def mget : Mapping → String → Option Entry
  | [], _ => none
  | (k, v) :: rest, key => if k = key then some v else mget rest key

/-- Python `mapping[k] = v`: replace in place if present, else append. -/
def mset : Mapping → String → Entry → Mapping
  | [], key, v => [(key, v)]
  | (k, w) :: rest, key, v =>
    if k = key then (key, v) :: rest else (k, w) :: mset rest key v

/-- Python exceptions reaching the modelled control flow. -/
inductive PyErr
  | valueError (msg : String)
  | attributeError
  | nameError
  | keyError
deriving Repr, DecidableEq

/-! ## Python truthiness for the values the scripts test -/

def truthyValOpt : Option PyVal → Bool
  | some (.int i) => i ≠ 0
  | some (.str s) => s ≠ ""
  | none => false

def truthyStrOpt : Option String → Bool
  | some s => s ≠ ""
  | none => false

def truthyBoolOpt : Option Bool → Bool
  | some b => b
  | none => false

def fmtTopic : Option PyVal → String
  | some (.int i) => toString i
  | some (.str s) => s
  | none => "None"

def fmtOptStr : Option String → String
  | some s => s
  | none => "None"

/-! ## Reconciler (`handle_github_issue`, handle_issue.py:26-201) -/

/-- The provider responses injected into a run (all provider calls are
modelled as succeeding with these values; the exceptions the claims are
about arise inside the script itself). -/
structure Env where
  discourseBaseUrl : String
  createTopicId : Option PyVal
  zoomJoinUrl : String
  zoomNewId : String
  zoomUpdateJoinUrl : Option String
  gcalCreateLink : String
deriving Repr, DecidableEq

/-- Line 49 / line 87: first entry whose `issue_number` equals the issue's;
`.get` on a raw scalar raises `AttributeError` and the scan stops there. -/
def findEntry : Mapping → Int → Except PyErr (Option (String × Record))
  | [], _ => .ok none
  | (_, .scalar _) :: _, _ => .error .attributeError
  | (k, .dict r) :: rest, n =>
    if r.issue_number = some n then .ok (some (k, r)) else findEntry rest n

/-- Line 98: `stored_start and stored_duration and (start_time == stored_start)
and (duration == stored_duration)` (Python truthiness: empty string and zero
are falsy). -/
def scheduleUnchanged (e : Record) (startTime : String) (duration : Int) : Bool :=
  match e.start_time, e.duration with
  | some s, some d => s ≠ "" && d ≠ 0 && s = startTime && d = duration
  | _, _ => false

/-- Lines 134-145: the full record written on upsert. -/
def freshRecord (topicId : Option PyVal) (title startTime : String) (duration : Int)
    (issueNumber : Int) (meetingId : String) : Record :=
  { discourse_topic_id := topicId
    issue_title := some title
    start_time := some startTime
    duration := some duration
    issue_number := some issueNumber
    meeting_id := some meetingId
    youtube_upload_processed := some false
    transcript_processed := some false
    upload_attempt_count := some 0
    transcript_attempt_count := some 0
    calendar_event_id := none }

/-- Line 177: `event_link.split('eid=')[-1]`. -/
def eidOf (link : String) : String := (link.splitOn "eid=").getLastD link

/-- Line 54: the topic id used for the rest of the run (the stored one when
truthy, else the one returned by `discourse.create_topic`). -/
def topicAfterDiscourse (env : Env) (storedTopic : Option PyVal) : Option PyVal :=
  if truthyValOpt storedTopic then storedTopic else env.createTopicId

/-- Mutable state threaded through the meeting/calendar phase, plus the
observable provider-call trace. -/
structure Phase where
  mapping : Mapping
  saves : List Mapping
  comments : List String
  zoomCreates : List (String × String × Int)
  zoomUpdates : List (String × String × String × Int)
  gcalUpdates : List String
  gcalCreates : Nat
  usedId : Option String
deriving Repr, DecidableEq

/-- The body of the `try:` at lines 81-181.  Returns the state at exit and
the exception caught by the handlers at 182-185, if any.  `join_url` is a
local only assigned in the create branch (line 117); referencing it in the
calendar descriptions (lines 163/173) when unassigned raises `NameError`,
which the generic handler catches. -/
def meetingPhase (env : Env) (issueNumber : Int) (title body : String)
    (topicId : Option PyVal) (st : Phase) : Phase × Option PyErr :=
  match parse_issue_for_time body with
  | .error msg => (st, some (.valueError msg))
  | .ok (startTime, duration) =>
    match findEntry st.mapping issueNumber with
    | .error e => (st, some e)
    | .ok existingItem =>
      let step3 : Phase × Option String × String × Bool :=
        match existingItem with
        | some (key, entry) =>
          if scheduleUnchanged entry startTime duration then
            ({ st with usedId := some key }, none, key, false)
          else
            ({ st with
                zoomUpdates := st.zoomUpdates ++ [(key, title, startTime, duration)]
                comments := st.comments ++
                  ["\n**Zoom Meeting Updated**",
                   "- Meeting URL: " ++ fmtOptStr env.zoomUpdateJoinUrl,
                   "- Meeting ID: " ++ key]
                usedId := some key }, none, key, true)
        | none =>
          ({ st with
              zoomCreates := st.zoomCreates ++ [(title, startTime, duration)]
              comments := st.comments ++
                ["\n**Zoom Meeting Created**",
                 "- Meeting URL: " ++ env.zoomJoinUrl,
                 "- Meeting ID: " ++ env.zoomNewId]
              usedId := some env.zoomNewId }, some env.zoomJoinUrl, env.zoomNewId, true)
      match step3 with
      | (st1, joinUrl, meetingId, updated) =>
        let st2 :=
          if updated || existingItem.isNone then
            let m1 := mset st1.mapping meetingId
              (.dict (freshRecord topicId title startTime duration issueNumber meetingId))
            { st1 with mapping := m1, saves := st1.saves ++ [m1] }
          else st1
        match mget st2.mapping meetingId with
        | none => (st2, some .keyError)
        | some (.scalar _) => (st2, some .attributeError)
        | some (.dict r) =>
          if truthyStrOpt r.calendar_event_id then
            match joinUrl with
            | none => (st2, some .nameError)
            | some _ =>
              ({ st2 with gcalUpdates := st2.gcalUpdates ++ [fmtOptStr r.calendar_event_id] },
               none)
          else
            match joinUrl with
            | none => (st2, some .nameError)
            | some _ =>
              let m2 := mset st2.mapping meetingId
                (.dict { r with calendar_event_id := some (eidOf env.gcalCreateLink) })
              ({ st2 with mapping := m2, saves := st2.saves ++ [m2],
                          gcalCreates := st2.gcalCreates + 1 }, none)

/-- The observable outcome of one reconciler run. -/
structure RunResult where
  mappingFinal : Mapping
  saves : List Mapping
  comments : List String
  zoomCreates : List (String × String × Int)
  zoomUpdates : List (String × String × String × Int)
  gcalUpdates : List String
  gcalCreates : Nat
  usedMeetingId : Option String
  meetingErr : Option PyErr
deriving Repr, DecidableEq

/-- Line 200-201: `{str(k): v for k, v in mapping.items() if
v.get("discourse_topic_id") is not None}`; `.get` on a raw scalar raises. -/
def pruneMapping : Mapping → Except PyErr Mapping
  | [] => .ok []
  | (_, .scalar _) :: _ => .error .attributeError
  | (k, .dict r) :: rest =>
    match pruneMapping rest with
    | .error e => .error e
    | .ok tail =>
      if r.discourse_topic_id.isSome then .ok ((k, .dict r) :: tail) else .ok tail

/-- Lines 54-78: the three comment lines the discourse phase appends. -/
def discourseComments (env : Env) (topicId0 topicId : Option PyVal) : List String :=
  ["**Discourse Topic ID:** " ++ fmtTopic topicId,
   "- Action: " ++ (if truthyValOpt topicId0 then "Updated" else "Created"),
   "- URL: " ++ env.discourseBaseUrl ++ "/t/" ++ fmtTopic topicId]

/-- The phase state entering the meeting/calendar `try:` block. -/
def initialPhase (env : Env) (mapping0 : Mapping) (topicId0 : Option PyVal) : Phase :=
  { mapping := mapping0, saves := [],
    comments := discourseComments env topicId0 (topicAfterDiscourse env topicId0),
    zoomCreates := [], zoomUpdates := [], gcalUpdates := [],
    gcalCreates := 0, usedId := none }

/-- `handle_github_issue` (handle_issue.py:26-201), as a pure function of the
provider environment, the loaded mapping file, and the issue.  An uncaught
exception (the unguarded lookups at lines 49 and 201) yields `.error`; the
comments posted before a prune-time exception are not retained in that
case.  The Telegram notification (lines 192-198) has no observable effect
here: its failures are swallowed and it touches no modelled state. -/
def handle_github_issue (env : Env) (mapping0 : Mapping) (issueNumber : Int)
    (issueTitle issueBody : String) : Except PyErr RunResult :=
  match findEntry mapping0 issueNumber with
  | .error e => .error e
  | .ok existingEntry =>
    let topicId0 : Option PyVal :=
      match existingEntry with
      | some (_, r) => r.discourse_topic_id
      | none => none
    let topicId := topicAfterDiscourse env topicId0
    match meetingPhase env issueNumber issueTitle issueBody topicId
        (initialPhase env mapping0 topicId0) with
    | (st, merr) =>
      let posted := if st.comments.isEmpty then [] else [String.intercalate "\n" st.comments]
      match pruneMapping st.mapping with
      | .error e => .error e
      | .ok pruned =>
        .ok { mappingFinal := pruned, saves := st.saves, comments := posted,
              zoomCreates := st.zoomCreates, zoomUpdates := st.zoomUpdates,
              gcalUpdates := st.gcalUpdates, gcalCreates := st.gcalCreates,
              usedMeetingId := st.usedId, meetingErr := merr }

/-- The content of the persisted store after a run: the last
`save_meeting_topic_mapping` call, or the untouched initial file. -/
def persistedFinal (init : Mapping) (saves : List Mapping) : Mapping :=
  saves.getLastD init

def hasNullTopic (m : Mapping) : Bool :=
  m.any fun p =>
    match p.2 with
    | .dict r => r.discourse_topic_id.isNone
    | .scalar _ => false

/-! ## Recording Harvester (`poll_zoom_recordings.py`) -/

/-- One item of `zoom.get_recordings_list()`: the fields `main` reads. -/
structure ZoomRec where
  id : Option String
  topic : String
  end_time : Option String
deriving Repr, DecidableEq

/-- `datetime.strptime(s, "%Y-%m-%dT%H:%M:%SZ")` (line 153): each numeric
directive matches a maximal 1-2 digit run (4 for the year), the literals
are matched case-insensitively, the whole string must be consumed, and the
resulting fields must form a valid datetime.  Returns seconds on a
proleptic-Gregorian axis for the timedelta comparison. -/
def cumDaysBeforeMonth (y m : Nat) : Nat :=
  let base := [0, 31, 59, 90, 120, 151, 181, 212, 243, 273, 304, 334].getD (m - 1) 0
  if 2 < m && isLeapYear y then base + 1 else base

def daysBeforeYear (y : Nat) : Nat :=
  365 * (y - 1) + ((y - 1) / 4 - (y - 1) / 100 + (y - 1) / 400)

def epochSeconds (y mo d h mi s : Nat) : Nat :=
  (daysBeforeYear y + cumDaysBeforeMonth y mo + (d - 1)) * 86400 + h * 3600 + mi * 60 + s

def read12 (cs : List Char) : Option (Nat × List Char) :=
  let p := cs.span isAsciiDigit
  if p.1.length = 0 || 2 < p.1.length then none else some (natOfDigits p.1, p.2)

def parseZoomEnd (s : String) : Option Nat :=
  let cs := s.toList
  let p0 := cs.span isAsciiDigit
  if p0.1.length ≠ 4 then none else
  match p0.2 with
  | '-' :: r2 =>
    match read12 r2 with
    | none => none
    | some (mo, r3) =>
      match r3 with
      | '-' :: r4 =>
        match read12 r4 with
        | none => none
        | some (d, r5) =>
          match r5 with
          | t :: r6 =>
            if lowerChar t ≠ 't' then none else
            match read12 r6 with
            | none => none
            | some (h, r7) =>
              match r7 with
              | ':' :: r8 =>
                match read12 r8 with
                | none => none
                | some (mi, r9) =>
                  match r9 with
                  | ':' :: r10 =>
                    match read12 r10 with
                    | none => none
                    | some (sec, r11) =>
                      match r11 with
                      | [z] =>
                        let y := natOfDigits p0.1
                        if lowerChar z = 'z' && validDMYHM y mo d h mi &&
                           decide (1 ≤ mo) && decide (mo ≤ 12) && decide (sec ≤ 59)
                        then some (epochSeconds y mo d h mi sec) else none
                      | _ => none
                  | _ => none
              | _ => none
          | [] => none
      | _ => none
  | _ => none

/-- `is_meeting_eligible` (lines 56-61): the meeting ended at least three
hours before `now` (a negative timedelta is below the threshold, which Nat
truncation reproduces since the threshold is positive). -/
def is_meeting_eligible (nowSec endSec : Nat) : Bool := 10800 ≤ nowSec - endSec

/-- The observable outcome of one `poll_zoom_recordings.main` run. -/
structure PollResult where
  fetches : List String
  saves : List Mapping
  mappingFinal : Mapping
  forcedErr : Option PyErr
deriving Repr, DecidableEq

/-- Forced mode (lines 71-97).  The whole body sits inside
`try/except Exception`, so the missing-mapping `ValueError` (line 82) and
any fetch failure are caught and logged, and the invocation returns
normally in every case. -/
def storedTopicOf (map0 : Mapping) (mid : String) : Option PyVal :=
  match mget map0 mid with
  | some (.dict r) => r.discourse_topic_id
  | some (.scalar v) => some v
  | none => none

def forcedRun (mid : String) (map0 : Mapping)
    (fetch : String → Except PyErr Int) : PollResult :=
  let entry := mget map0 mid
  let dtid : Option PyVal := storedTopicOf map0 mid
  if !truthyValOpt dtid then
    { fetches := [], saves := [], mappingFinal := map0,
      forcedErr := some (.valueError ("No Discourse topic mapping found for meeting " ++ mid)) }
  else
    match fetch mid with
    | .error e => { fetches := [mid], saves := [], mappingFinal := map0, forcedErr := some e }
    | .ok _ =>
      match entry with
      | some (.dict r) =>
        let minimized : Record :=
          { discourse_topic_id := dtid
            issue_title := some (r.issue_title.getD ("Meeting " ++ mid)) }
        let m1 := mset map0 mid (.dict minimized)
        { fetches := [mid], saves := [m1], mappingFinal := m1, forcedErr := none }
      | some (.scalar _) =>
        -- `entry.get("issue_title", ...)` on a raw scalar raises; caught by the handler
        { fetches := [mid], saves := [], mappingFinal := map0, forcedErr := some .attributeError }
      | none =>
        -- unreachable: a truthy topic id implies the entry exists
        { fetches := [mid], saves := [], mappingFinal := map0, forcedErr := some .attributeError }

structure SweepSt where
  mapping : Mapping
  saves : List Mapping
  fetches : List String
deriving Repr, DecidableEq

/-- Tier 1 (lines 101-123): the five most-recently-inserted entries, newest
first; legacy scalars and already-processed entries are skipped; a
successful fetch marks the entry processed and saves immediately; a failed
fetch is logged and skipped (no counter change, no save). -/
def tier1 (fetch : String → Except PyErr Int) :
    List (String × Entry) → SweepSt → Nat → SweepSt × Nat
  | [], st, cnt => (st, cnt)
  | (_, .scalar _) :: rest, st, cnt => tier1 fetch rest st cnt
  | (mid, .dict e) :: rest, st, cnt =>
    if truthyBoolOpt e.transcript_processed then tier1 fetch rest st cnt
    else
      match fetch mid with
      | .ok _ =>
        let m1 := mset st.mapping mid (.dict { e with transcript_processed := some true })
        tier1 fetch rest
          { mapping := m1, saves := st.saves ++ [m1], fetches := st.fetches ++ [mid] }
          (cnt + 1)
      | .error _ => tier1 fetch rest { st with fetches := st.fetches ++ [mid] } cnt

/-- Tier-2 candidate scan (lines 135-157): build the eligible, unprocessed
candidate list; a malformed `end_time` makes `strptime` raise out of `main`. -/
def buildCandidates (mapping : Mapping) (nowSec : Nat) :
    List ZoomRec → Except PyErr (List (String × String))
  | [] => .ok []
  | r :: rest =>
    let mid := match r.id with | some s => s | none => "None"
    let endStr := r.end_time.getD ""
    if mid = "" || endStr = "" then buildCandidates mapping nowSec rest
    else
      let alreadyDone : Bool :=
        match mget mapping mid with
        | some (.dict e) => truthyValOpt e.discourse_topic_id && truthyBoolOpt e.transcript_processed
        | some (.scalar _) => true
        | none => false
      if alreadyDone then buildCandidates mapping nowSec rest
      else
        match parseZoomEnd endStr with
        | none => .error (.valueError "time data does not match format")
        | some endSec =>
          match buildCandidates mapping nowSec rest with
          | .error e => .error e
          | .ok tail =>
            if is_meeting_eligible nowSec endSec then .ok ((mid, r.topic) :: tail) else .ok tail

/-- Tier-2 candidate processing (lines 163-193): normalize missing/scalar
entries to `{}`, skip processed entries and entries at the 10-attempt
ceiling, otherwise fetch; success sets the topic id and the processed flag,
failure increments the attempt counter; the `finally` saves after every
attempted candidate. -/
def processCandidates (fetch : String → Except PyErr Int) :
    List (String × String) → SweepSt → SweepSt
  | [], st => st
  | (mid, _) :: rest, st =>
    let m1 :=
      match mget st.mapping mid with
      | some (.dict _) => st.mapping
      | _ => mset st.mapping mid (.dict {})
    let e :=
      match mget m1 mid with
      | some (.dict r) => r
      | _ => {}
    if truthyBoolOpt e.transcript_processed then
      processCandidates fetch rest { st with mapping := m1 }
    else if (10 : Int) ≤ e.upload_attempt_count.getD 0 then
      processCandidates fetch rest { st with mapping := m1 }
    else
      let e' :=
        match fetch mid with
        | .ok tid => { e with discourse_topic_id := some (.int tid), transcript_processed := some true }
        | .error _ => { e with upload_attempt_count := some (e.upload_attempt_count.getD 0 + 1) }
      let m2 := mset m1 mid (.dict e')
      processCandidates fetch rest
        { mapping := m2, saves := st.saves ++ [m2], fetches := st.fetches ++ [mid] }

/-- Sweep mode (lines 101-193): tier 1 over the last five entries, newest
first; tier 2 only when tier 1 processed nothing. -/
def sweepRun (map0 : Mapping) (recs : List ZoomRec) (nowSec : Nat)
    (fetch : String → Except PyErr Int) : Except PyErr PollResult :=
  let items := (map0.reverse).take 5
  match tier1 fetch items { mapping := map0, saves := [], fetches := [] } 0 with
  | (st1, processed) =>
    if processed ≠ 0 then
      .ok { fetches := st1.fetches, saves := st1.saves, mappingFinal := st1.mapping,
            forcedErr := none }
    else
      match buildCandidates st1.mapping nowSec recs with
      | .error e => .error e
      | .ok cands =>
        if cands.isEmpty then
          .ok { fetches := st1.fetches, saves := st1.saves, mappingFinal := st1.mapping,
                forcedErr := none }
        else
          match processCandidates fetch cands
              { mapping := st1.mapping, saves := st1.saves, fetches := st1.fetches } with
          | st2 =>
            .ok { fetches := st2.fetches, saves := st2.saves, mappingFinal := st2.mapping,
                  forcedErr := none }

/-- `validate_meeting_id` (lines 63-64): `str(meeting_id).strip()`. -/
def pyStrip (s : String) : String :=
  String.mk (((s.toList.dropWhile isPySpace).reverse.dropWhile isPySpace).reverse)

/-- `main` of poll_zoom_recordings.py (lines 66-193).  A truthy
`--force_meeting_id` whose stripped form is non-empty runs forced mode and
returns; a whitespace-only one falls through to the sweep (the `return`
only guards the non-empty branch). -/
def poll_recordings_main (forcedId : Option String) (map0 : Mapping)
    (recs : List ZoomRec) (nowSec : Nat)
    (fetch : String → Except PyErr Int) : Except PyErr PollResult :=
  match forcedId with
  | some s =>
    if s ≠ "" then
      if pyStrip s ≠ "" then .ok (forcedRun (pyStrip s) map0 fetch)
      else sweepRun map0 recs nowSec fetch
    else sweepRun map0 recs nowSec fetch
  | none => sweepRun map0 recs nowSec fetch

/-! ## Concrete fixtures used by the claim theorems -/

def env0 : Env :=
  { discourseBaseUrl := "https://ethereum-magicians.org"
    createTopicId := some (.int 42)
    zoomJoinUrl := "https://zoom.us/j/111"
    zoomNewId := "Z1"
    zoomUpdateJoinUrl := some "https://zoom.us/j/upd"
    gcalCreateLink := "https://cal/event?eid=EID1" }

def recOld : Record :=
  { discourse_topic_id := some (.int 9)
    issue_title := some "Old title"
    start_time := some "2024-05-14T15:00:00Z"
    duration := some 30
    issue_number := some 5
    meeting_id := some "M1"
    youtube_upload_processed := some true
    transcript_processed := some true
    upload_attempt_count := some 3
    transcript_attempt_count := some 2
    calendar_event_id := some "EVT" }

def recZero : Record := { recOld with duration := some 0 }
def recNullMap : Mapping :=
  [("111", .dict { issue_number := some 7, issue_title := some "Other" })]

def recCeil : Record := { upload_attempt_count := some 10 }

def rec55 : Record :=
  { discourse_topic_id := some (.int 8), issue_title := some "T",
    transcript_processed := some true, upload_attempt_count := some 4 }

def fetchOk : String → Except PyErr Int := fun _ => .ok 77

/-- A mapping with no legacy raw-scalar entries. -/
def noScalar (m : Mapping) : Bool :=
  m.all fun p => match p.2 with | .dict _ => true | .scalar _ => false

/-! ## Store lemmas -/

theorem mget_mset_self (m : Mapping) (k : String) (v : Entry) :
    mget (mset m k v) k = some v := by
  induction m with
  | nil => simp [mset, mget]
  | cons hd tl ih =>
    obtain ⟨k0, w⟩ := hd
    by_cases h : k0 = k
    · simp [mset, h, mget]
    · simp [mset, h, mget, ih]

theorem mget_mset_ne (m : Mapping) (k k' : String) (v : Entry) (h : k' ≠ k) :
    mget (mset m k' v) k = mget m k := by
  induction m with
  | nil => simp [mset, mget, h]
  | cons hd tl ih =>
    obtain ⟨k0, w⟩ := hd
    by_cases h0 : k0 = k'
    · subst h0
      simp [mset, mget, h]
    · simp [mset, h0, mget, ih]

theorem findEntry_key_mem : ∀ (m : Mapping) (n : Int) (k : String) (r : Record),
    findEntry m n = .ok (some (k, r)) → k ∈ m.map Prod.fst := by
  intro m
  induction m with
  | nil => intro n k r h; simp [findEntry] at h
  | cons hd tl ih =>
    intro n k r h
    match hd with
    | (k0, .scalar v) => simp [findEntry] at h
    | (k0, .dict r0) =>
      by_cases hn : r0.issue_number = some n
      · simp [findEntry, hn] at h
        simp [h.1]
      · simp [findEntry, hn] at h
        exact List.mem_cons_of_mem _ (ih n k r h)

theorem findEntry_mget : ∀ (m : Mapping) (n : Int) (k : String) (r : Record),
    (m.map Prod.fst).Nodup → findEntry m n = .ok (some (k, r)) →
    mget m k = some (.dict r) := by
  intro m
  induction m with
  | nil => intro n k r _ h; simp [findEntry] at h
  | cons hd tl ih =>
    intro n k r hnd h
    match hd with
    | (k0, .scalar v) => simp [findEntry] at h
    | (k0, .dict r0) =>
      simp only [List.map_cons, List.nodup_cons] at hnd
      by_cases hn : r0.issue_number = some n
      · simp [findEntry, hn] at h
        simp [mget, h.1, h.2]
      · simp only [findEntry, hn, if_false] at h
        have hk : k ∈ tl.map Prod.fst := findEntry_key_mem tl n k r h
        have : k0 ≠ k := fun he => hnd.1 (he ▸ hk)
        simp [mget, this, ih n k r hnd.2 h]

theorem pruneMapping_isOk : ∀ (m : Mapping), noScalar m = true →
    ∃ l, pruneMapping m = .ok l := by
  intro m
  induction m with
  | nil => intro _; exact ⟨[], rfl⟩
  | cons hd tl ih =>
    intro h
    match hd with
    | (k0, .scalar v) => simp [noScalar] at h
    | (k0, .dict r0) =>
      simp only [noScalar, List.all_cons, Bool.and_eq_true] at h
      obtain ⟨l, hl⟩ := ih h.2
      by_cases hs : r0.discourse_topic_id.isSome
      · exact ⟨(k0, .dict r0) :: l, by simp [pruneMapping, hl, hs]⟩
      · exact ⟨l, by simp [pruneMapping, hl, hs]⟩

theorem strptimeStart_push (g : DateGroups) (iso : String)
    (h : strptimeStart g = some iso) : ∃ p : String, iso = p.push 'Z' := by
  unfold strptimeStart at h
  split at h
  · split at h
    · cases Option.some_inj.mp h
      exact ⟨_, rfl⟩
    · exact absurd h (by simp)
  · split at h
    · split at h
      · cases Option.some_inj.mp h
        exact ⟨_, rfl⟩
      · exact absurd h (by simp)
    · exact absurd h (by simp)

/-! ## Claim theorems: Time Extractor -/

/-- C5: for every issue body whose date token has the shape
`Month D, YYYY HH:MM-HH:MM UTC` and which contains no explicit duration
label and no dash-bullet duration, `parse_issue_for_time` returns the start
normalized to UTC ISO-8601 with a trailing `Z` together with the end-minus-
start difference in whole minutes, and fails with a parse error when the
end time is not after the start time; in particular the body
`"[Tue May 14, 2024 15:00-15:30 UTC]"` yields start
`"2024-05-14T15:00:00Z"` and duration `30`. -/
theorem c5_end_time_duration :
    (∀ (body : String) (g : DateGroups) (eh em : Nat) (iso : String),
      searchDate body.toList = some g →
      g.endTime = some (eh, em) →
      searchDuration body.toList = none →
      searchDash body.toList = none →
      strptimeStart g = some iso →
      eh ≤ 23 → em ≤ 59 →
      ((g.hour * 60 + g.minute < eh * 60 + em →
          parse_issue_for_time body =
            .ok (iso, Int.ofNat (eh * 60 + em - (g.hour * 60 + g.minute))) ∧
          ∃ p : String, iso = p.push 'Z') ∧
       (eh * 60 + em ≤ g.hour * 60 + g.minute →
          parse_issue_for_time body = .error "End time must be after start time.")))
    ∧ parse_issue_for_time "[Tue May 14, 2024 15:00-15:30 UTC]" =
        .ok ("2024-05-14T15:00:00Z", 30) := by
  constructor
  · intro body g eh em iso hg hend hdur hdash hiso heh hem
    have hmain : parse_issue_for_time body =
        match computeEndDuration g (eh, em) with
        | .ok d => .ok (iso, d)
        | .error m => .error m := by
      simp only [parse_issue_for_time, hg, hiso, hdur, hdash, hend]
    constructor
    · intro hlt
      have hko : computeEndDuration g (eh, em) =
          .ok (Int.ofNat (eh * 60 + em - (g.hour * 60 + g.minute))) := by
        unfold computeEndDuration
        rw [if_neg (by omega), if_neg (by omega)]
      refine ⟨?_, strptimeStart_push g iso hiso⟩
      rw [hmain, hko]
    · intro hle
      have hke : computeEndDuration g (eh, em) =
          .error "End time must be after start time." := by
        unfold computeEndDuration
        rw [if_neg (by omega), if_pos (by omega)]
      rw [hmain, hke]
  · rfl

/-- C5 witness: the universal part applied at the concrete scenario body. -/
theorem c5_end_time_duration_witness :
    parse_issue_for_time "[Tue May 14, 2024 15:00-15:30 UTC]" =
      .ok ("2024-05-14T15:00:00Z", Int.ofNat (15 * 60 + 30 - (15 * 60 + 0))) ∧
    ∃ p : String, "2024-05-14T15:00:00Z" = p.push 'Z' :=
  (c5_end_time_duration.1 "[Tue May 14, 2024 15:00-15:30 UTC]"
    ⟨"May", 14, 2024, 15, 0, some (15, 30)⟩ 15 30 "2024-05-14T15:00:00Z"
    rfl rfl rfl rfl rfl (by omega) (by omega)).1 (by decide)

/-- C6 counterexample: the body `"[May 14, 2024 15:00 UTC]\n- 15"` contains
no explicit duration label and its date token captures no end time, yet
`parse_issue_for_time` succeeds (via the dash-bullet fallback) instead of
failing with a parse error, refuting the claim's final clause. -/
theorem c6_counterexample_dash_bullet :
    searchDuration ("[May 14, 2024 15:00 UTC]\n- 15").toList = none ∧
    (∃ g, searchDate ("[May 14, 2024 15:00 UTC]\n- 15").toList = some g ∧
      g.endTime = none) ∧
    parse_issue_for_time "[May 14, 2024 15:00 UTC]\n- 15" =
      .ok ("2024-05-14T15:00:00Z", 15) :=
  ⟨rfl, ⟨⟨"May", 14, 2024, 15, 0, none⟩, rfl, rfl⟩, rfl⟩

/-- C6 (amended): duration resolution follows the priority order, first
match wins: an explicit duration label wins even when an end time is
present; absent such a label and a dash-bullet number, a captured end time
determines the duration; and an input with no duration label, no
dash-bullet number, and no captured end time fails with a parse error. -/
theorem c6_duration_priority :
    (∀ (body : String) (g : DateGroups) (n : Nat) (iso : String),
      searchDate body.toList = some g →
      strptimeStart g = some iso →
      searchDuration body.toList = some n →
      parse_issue_for_time body = .ok (iso, Int.ofNat n))
    ∧ (∀ (body : String) (g : DateGroups) (eh em : Nat) (iso : String),
      searchDate body.toList = some g →
      strptimeStart g = some iso →
      searchDuration body.toList = none →
      searchDash body.toList = none →
      g.endTime = some (eh, em) →
      eh ≤ 23 → em ≤ 59 → g.hour * 60 + g.minute < eh * 60 + em →
      parse_issue_for_time body =
        .ok (iso, Int.ofNat (eh * 60 + em - (g.hour * 60 + g.minute))))
    ∧ (∀ (body : String),
      searchDuration body.toList = none →
      searchDash body.toList = none →
      (∀ g, searchDate body.toList = some g → g.endTime = none) →
      ∃ msg, parse_issue_for_time body = .error msg) := by
  refine ⟨?_, ?_, ?_⟩
  · intro body g n iso hg hiso hdur
    simp only [parse_issue_for_time, hg, hiso, hdur]
  · intro body g eh em iso hg hiso hdur hdash hend heh hem hlt
    have hko : computeEndDuration g (eh, em) =
        .ok (Int.ofNat (eh * 60 + em - (g.hour * 60 + g.minute))) := by
      unfold computeEndDuration
      rw [if_neg (by omega), if_neg (by omega)]
    simp only [parse_issue_for_time, hg, hiso, hdur, hdash, hend, hko]
  · intro body hdur hdash hend
    rcases hg : searchDate body.toList with _ | g
    · exact ⟨"Missing or invalid date/time format.",
        by simp only [parse_issue_for_time, hg]⟩
    · rcases hiso : strptimeStart g with _ | iso
      · exact ⟨"Unable to parse the start time.",
          by simp only [parse_issue_for_time, hg, hiso]⟩
      · exact ⟨"Missing or invalid duration format. Provide duration in minutes after the date/time.",
          by simp only [parse_issue_for_time, hg, hiso, hdur, hdash, hend g hg]⟩

/-- C6 witness: the label-priority part applied at a body carrying both an
explicit duration label and an end time, and the fail part at a body with
neither. -/
theorem c6_duration_priority_witness :
    parse_issue_for_time "[Tue May 14, 2024 15:00-15:30 UTC]\nDuration: 45 minutes" =
      .ok ("2024-05-14T15:00:00Z", Int.ofNat 45) ∧
    ∃ msg, parse_issue_for_time "agenda for the call" = .error msg :=
  ⟨c6_duration_priority.1 "[Tue May 14, 2024 15:00-15:30 UTC]\nDuration: 45 minutes"
      ⟨"May", 14, 2024, 15, 0, some (15, 30)⟩ 45 "2024-05-14T15:00:00Z" rfl rfl rfl,
   c6_duration_priority.2.2 "agenda for the call" rfl rfl
     (fun g hg => by
        have hn : (none : Option DateGroups) = some g := hg
        exact Option.noConfusion hn)⟩

/-! ## Reconciler phase lemmas -/

/-- When an entry for the issue exists and the stored schedule passes the
no-change check, the meeting phase makes no provider call, writes nothing,
and then dies with the caught `NameError` in the calendar step (`join_url`
is unassigned outside the create branch). -/
theorem meetingPhase_unchanged (env : Env) (n : Int) (title body : String)
    (topicId : Option PyVal) (st : Phase) (startTime : String) (dur : Int)
    (key : String) (e : Record)
    (hp : parse_issue_for_time body = .ok (startTime, dur))
    (hf : findEntry st.mapping n = .ok (some (key, e)))
    (hu : scheduleUnchanged e startTime dur = true)
    (hm : mget st.mapping key = some (.dict e)) :
    meetingPhase env n title body topicId st =
      ({ st with usedId := some key }, some .nameError) := by
  simp only [meetingPhase, hp, hf, hu, if_true, Option.isNone_some, Bool.false_or,
    Bool.or_false, if_false, hm]
  cases hT : truthyStrOpt e.calendar_event_id <;> simp [hT, hm]

/-- When an entry exists but the stored schedule fails the no-change check,
the meeting phase makes exactly one update call, overwrites the record with
the freshly initialized one, saves once, and then dies with the caught
`NameError` in the calendar step. -/
theorem meetingPhase_drift (env : Env) (n : Int) (title body : String)
    (topicId : Option PyVal) (st : Phase) (startTime : String) (dur : Int)
    (key : String) (e : Record)
    (hp : parse_issue_for_time body = .ok (startTime, dur))
    (hf : findEntry st.mapping n = .ok (some (key, e)))
    (hu : scheduleUnchanged e startTime dur = false) :
    meetingPhase env n title body topicId st =
      ({ st with
          mapping := mset st.mapping key
            (.dict (freshRecord topicId title startTime dur n key))
          saves := st.saves ++ [mset st.mapping key
            (.dict (freshRecord topicId title startTime dur n key))]
          zoomUpdates := st.zoomUpdates ++ [(key, title, startTime, dur)]
          comments := st.comments ++
            ["\n**Zoom Meeting Updated**",
             "- Meeting URL: " ++ fmtOptStr env.zoomUpdateJoinUrl,
             "- Meeting ID: " ++ key]
          usedId := some key }, some .nameError) := by
  simp only [meetingPhase, hp, hf, hu]
  simp [mget_mset_self, freshRecord, truthyStrOpt]

theorem noScalar_mset (m : Mapping) (k : String) (r : Record)
    (h : noScalar m = true) : noScalar (mset m k (.dict r)) = true := by
  induction m with
  | nil => rfl
  | cons hd tl ih =>
    obtain ⟨k0, w⟩ := hd
    simp only [noScalar, List.all_cons, Bool.and_eq_true] at h
    by_cases h0 : k0 = k
    · subst h0
      simp only [mset, if_pos rfl]
      simpa [noScalar] using h.2
    · simp only [mset, h0, if_false, noScalar, List.all_cons, Bool.and_eq_true]
      exact ⟨h.1, by simpa [noScalar] using ih (by simpa [noScalar] using h.2)⟩

/-! ## Claim theorems: Reconciler -/

/-- C3 counterexample: a stored record whose schedule is present and equal
to the freshly parsed one, but whose duration is `0`, is falsy under the
code's truthiness check, so the second run of the unchanged issue makes a
meeting-update provider call instead of the claimed zero calls. -/
theorem c3_counterexample_zero_duration :
    parse_issue_for_time "[May 14, 2024 15:00 UTC]\nDuration: 0 minutes" =
      .ok ("2024-05-14T15:00:00Z", 0) ∧
    recZero.start_time = some "2024-05-14T15:00:00Z" ∧
    recZero.duration = some 0 ∧
    ∃ res, handle_github_issue env0 [("M1", .dict recZero)] 5 "Call"
        "[May 14, 2024 15:00 UTC]\nDuration: 0 minutes" = .ok res ∧
      res.zoomUpdates ≠ [] := by
  refine ⟨rfl, rfl, rfl, _, rfl, ?_⟩
  decide

/-- C3 (amended): with stored `start_time` and `duration` both present,
truthy (non-empty string, non-zero minutes), and equal to the freshly
parsed values, the second run makes zero meeting-provider create or update
calls, reuses the existing meeting id, and never saves the store (so the
persisted meeting/calendar fields are unchanged); if the stored schedule
fails that check — e.g. only the duration changed — the run makes exactly
one meeting-update call and zero meeting-create calls. -/
theorem c3_idempotence_and_drift :
    (∀ (env : Env) (map0 : Mapping) (n : Int) (title body startTime : String)
       (dur : Int) (key : String) (e : Record),
      parse_issue_for_time body = .ok (startTime, dur) →
      findEntry map0 n = .ok (some (key, e)) →
      scheduleUnchanged e startTime dur = true →
      (map0.map Prod.fst).Nodup →
      noScalar map0 = true →
      ∃ res, handle_github_issue env map0 n title body = .ok res ∧
        res.zoomCreates = [] ∧ res.zoomUpdates = [] ∧ res.saves = [] ∧
        res.usedMeetingId = some key)
    ∧ (∀ (env : Env) (map0 : Mapping) (n : Int) (title body startTime : String)
       (dur : Int) (key : String) (e : Record),
      parse_issue_for_time body = .ok (startTime, dur) →
      findEntry map0 n = .ok (some (key, e)) →
      scheduleUnchanged e startTime dur = false →
      noScalar map0 = true →
      ∃ res, handle_github_issue env map0 n title body = .ok res ∧
        res.zoomUpdates = [(key, title, startTime, dur)] ∧ res.zoomCreates = []) := by
  constructor
  · intro env map0 n title body startTime dur key e hp hf hu hnd hns
    have hm : mget map0 key = some (.dict e) := findEntry_mget map0 n key e hnd hf
    obtain ⟨l, hl⟩ := pruneMapping_isOk map0 hns
    have hmp := meetingPhase_unchanged env n title body
      (topicAfterDiscourse env e.discourse_topic_id)
      (initialPhase env map0 e.discourse_topic_id) startTime dur key e hp hf hu hm
    simp only [handle_github_issue, hf]
    rw [hmp]
    simp only [initialPhase, discourseComments, hl]
    exact ⟨_, rfl, rfl, rfl, rfl, rfl⟩
  · intro env map0 n title body startTime dur key e hp hf hu hns
    obtain ⟨l, hl⟩ := pruneMapping_isOk
      (mset map0 key (.dict (freshRecord (topicAfterDiscourse env e.discourse_topic_id)
        title startTime dur n key)))
      (noScalar_mset map0 key _ hns)
    have hmp := meetingPhase_drift env n title body
      (topicAfterDiscourse env e.discourse_topic_id)
      (initialPhase env map0 e.discourse_topic_id) startTime dur key e hp hf hu
    simp only [handle_github_issue, hf]
    rw [hmp]
    simp only [initialPhase, discourseComments, hl]
    exact ⟨_, rfl, rfl, rfl⟩

/-- C3 witness: both branches at a concrete store and body. -/
theorem c3_idempotence_and_drift_witness :
    (∃ res, handle_github_issue env0 [("M1", .dict recOld)] 5 "Call"
        "[May 14, 2024 15:00 UTC]\nDuration: 30 minutes" = .ok res ∧
      res.zoomCreates = [] ∧ res.zoomUpdates = [] ∧ res.saves = [] ∧
      res.usedMeetingId = some "M1") ∧
    (∃ res, handle_github_issue env0 [("M1", .dict recOld)] 5 "Call"
        "[May 14, 2024 15:00 UTC]\nDuration: 45 minutes" = .ok res ∧
      res.zoomUpdates = [("M1", "Call", "2024-05-14T15:00:00Z", 45)] ∧
      res.zoomCreates = []) :=
  ⟨c3_idempotence_and_drift.1 env0 [("M1", .dict recOld)] 5 "Call"
      "[May 14, 2024 15:00 UTC]\nDuration: 30 minutes" "2024-05-14T15:00:00Z" 30 "M1" recOld
      rfl rfl rfl (by decide) rfl,
   c3_idempotence_and_drift.2 env0 [("M1", .dict recOld)] 5 "Call"
      "[May 14, 2024 15:00 UTC]\nDuration: 45 minutes" "2024-05-14T15:00:00Z" 45 "M1" recOld
      rfl rfl rfl rfl⟩

/-- C2 counterexample: a drifted run over a record with
`transcript_processed = true`, `upload_attempt_count = 3` and a stored
`calendar_event_id` ends with the store holding a record whose flags are
reset to `false`, whose counters are reset to `0`, and whose
`calendar_event_id` is gone — the step-4 upsert preserves none of them. -/
theorem c2_counterexample_upsert_clobbers :
    recOld.transcript_processed = some true ∧
    recOld.upload_attempt_count = some 3 ∧
    recOld.calendar_event_id = some "EVT" ∧
    ∃ res, handle_github_issue env0 [("M1", .dict recOld)] 5 "Call"
        "[May 14, 2024 15:00 UTC]\nDuration: 45 minutes" = .ok res ∧
      mget res.mappingFinal "M1" = some (.dict
        { discourse_topic_id := some (.int 9), issue_title := some "Call",
          start_time := some "2024-05-14T15:00:00Z", duration := some 45,
          issue_number := some 5, meeting_id := some "M1",
          youtube_upload_processed := some false, transcript_processed := some false,
          upload_attempt_count := some 0, transcript_attempt_count := some 0,
          calendar_event_id := none }) := by
  refine ⟨rfl, rfl, rfl, _, rfl, ?_⟩
  decide

/-- C2 (amended): the step-4 upsert replaces the whole record — for drifted
(updated) meetings as well as brand-new ones it writes a freshly
initialized record with idempotency flags `false`, attempt counters `0`,
and no `calendar_event_id`, instead of preserving the stored values;
`calendar_event_id` survives a run only when no upsert happens (the
unchanged-schedule branch). -/
theorem c2_upsert_reinitializes (env : Env) (map0 : Mapping) (n : Int)
    (title body startTime : String) (dur : Int) (key : String) (e : Record)
    (hp : parse_issue_for_time body = .ok (startTime, dur))
    (hf : findEntry map0 n = .ok (some (key, e)))
    (hu : scheduleUnchanged e startTime dur = false)
    (hns : noScalar map0 = true) :
    ∃ res fr, handle_github_issue env map0 n title body = .ok res ∧
      res.saves.head? = some (mset map0 key (.dict fr)) ∧
      fr.transcript_processed = some false ∧
      fr.youtube_upload_processed = some false ∧
      fr.upload_attempt_count = some 0 ∧
      fr.transcript_attempt_count = some 0 ∧
      fr.calendar_event_id = none := by
  obtain ⟨l, hl⟩ := pruneMapping_isOk
    (mset map0 key (.dict (freshRecord (topicAfterDiscourse env e.discourse_topic_id)
      title startTime dur n key)))
    (noScalar_mset map0 key _ hns)
  have hmp := meetingPhase_drift env n title body
    (topicAfterDiscourse env e.discourse_topic_id)
    (initialPhase env map0 e.discourse_topic_id) startTime dur key e hp hf hu
  simp only [handle_github_issue, hf]
  rw [hmp]
  simp only [initialPhase, discourseComments, hl]
  exact ⟨_, freshRecord (topicAfterDiscourse env e.discourse_topic_id)
      title startTime dur n key, rfl, rfl, rfl, rfl, rfl, rfl, rfl⟩

/-- C2 witness: the amended theorem at a concrete drifted run. -/
theorem c2_upsert_reinitializes_witness :
    ∃ res fr, handle_github_issue env0 [("M1", .dict recOld)] 5 "Call"
        "[May 14, 2024 15:00 UTC]\nDuration: 45 minutes" = .ok res ∧
      res.saves.head? = some (mset [("M1", .dict recOld)] "M1" (.dict fr)) ∧
      fr.transcript_processed = some false ∧
      fr.youtube_upload_processed = some false ∧
      fr.upload_attempt_count = some 0 ∧
      fr.transcript_attempt_count = some 0 ∧
      fr.calendar_event_id = none :=
  c2_upsert_reinitializes env0 [("M1", .dict recOld)] 5 "Call"
    "[May 14, 2024 15:00 UTC]\nDuration: 45 minutes" "2024-05-14T15:00:00Z" 45 "M1" recOld
    rfl rfl rfl rfl

/-- C4: whenever the meeting record's `calendar_event_id` is present, the
calendar update is never invoked: the only branch that reaches it has
`join_url` unassigned (it is set only when a new meeting is created), so
building the event description raises `NameError`, which the generic
handler at line 184 swallows — the phase silently fails instead of
updating the event. -/
theorem c4_calendar_update_never_invoked :
    recOld.calendar_event_id = some "EVT" ∧
    ∃ res, handle_github_issue env0 [("M1", .dict recOld)] 5 "Call"
        "[May 14, 2024 15:00 UTC]\nDuration: 30 minutes" = .ok res ∧
      res.gcalUpdates = [] ∧ res.gcalCreates = 0 ∧
      res.meetingErr = some .nameError := by
  exact ⟨rfl, _, rfl, rfl, rfl, rfl⟩

/-- C1: the line-201 prune rebinds only the local `mapping` variable; the
filtered dict is neither saved nor returned, so the persisted Mapping
Store still contains a record with a null `discourse_topic_id` when the
run completes (here: a run that performs no save leaves the initial file,
with its null-topic record, as the persisted state, while the discarded
local copy was pruned). -/
theorem c1_prune_never_persisted :
    hasNullTopic recNullMap = true ∧
    ∃ res, handle_github_issue env0 recNullMap 5 "Call" "hello" = .ok res ∧
      res.saves = [] ∧
      hasNullTopic (persistedFinal recNullMap res.saves) = true ∧
      hasNullTopic res.mappingFinal = false := by
  exact ⟨rfl, _, rfl, rfl, rfl, rfl⟩

/-- C7: a Time Extractor failure is caught (the run completes, steps 3-5
are no-ops), but the single posted comment carries only the
discourse-topic status: the parse failure reason appears nowhere in it,
contradicting the docstring's promise that a comment indicating the format
error is posted. -/
theorem c7_comment_omits_parse_failure :
    ∃ res, handle_github_issue env0 [] 5 "Call" "hello" = .ok res ∧
      res.meetingErr = some (.valueError "Missing or invalid date/time format.") ∧
      res.saves = [] ∧ res.zoomCreates = [] ∧ res.zoomUpdates = [] ∧
      res.gcalUpdates = [] ∧ res.gcalCreates = 0 ∧
      res.comments =
        ["**Discourse Topic ID:** 42\n- Action: Created\n- URL: https://ethereum-magicians.org/t/42"] ∧
      (∀ c ∈ res.comments, strContains c "Missing or invalid" = false) := by
  refine ⟨_, rfl, rfl, rfl, rfl, rfl, rfl, rfl, rfl, ?_⟩
  decide

/-- C10 counterexample: a store holding a legacy raw-scalar entry makes the
issue-number lookup call `.get` on the scalar, and the `AttributeError`
escapes the Reconciler run. -/
theorem c10_counterexample_scalar_crash :
    handle_github_issue env0 [("9", .scalar (.int 3))] 5 "Call" "body" =
      .error .attributeError := rfl

/-- C10 (amended): the Reconciler does not tolerate legacy scalar entries on
its read paths: the unguarded `.get` calls of the issue-number lookup (and
of the pruning pass) raise `AttributeError`; in particular every run over a
store whose first entry is a raw scalar aborts with `AttributeError`
before any phase runs. -/
theorem c10_scalar_entries_raise (env : Env) (k : String) (v : PyVal)
    (rest : Mapping) (n : Int) (title body : String) :
    handle_github_issue env ((k, .scalar v) :: rest) n title body =
      .error .attributeError := by
  simp [handle_github_issue, findEntry]

/-! ## Claim theorems: Recording Harvester -/

/-- C8 counterexample: a meeting whose `upload_attempt_count` has reached 10
but which sits in the recent-backlog window (tier 1) without a
`transcript_processed` flag is fetched again on the next sweep run — the
retry ceiling is not consulted by tier 1. -/
theorem c8_counterexample_tier1_refetch :
    recCeil.upload_attempt_count = some 10 ∧
    recCeil.transcript_processed = none ∧
    ∃ r, poll_recordings_main none [("77", .dict recCeil)] [] 0 fetchOk = .ok r ∧
      r.fetches = ["77"] := by
  exact ⟨rfl, rfl, _, rfl, rfl⟩

/-- C8 (amended): the 10-attempt retry ceiling is enforced only in tier-2
candidate processing: there, a candidate whose store entry is a record with
`upload_attempt_count ≥ 10` is skipped before any fetch, and no tier-2
fetch of it ever happens; tier-1 backlog processing and forced mode do not
consult the counter. -/
theorem c8_tier2_retry_ceiling (fetch : String → Except PyErr Int)
    (cands : List (String × String)) (st : SweepSt) (m : String) (r : Record)
    (hm : mget st.mapping m = some (.dict r))
    (hc : (10 : Int) ≤ r.upload_attempt_count.getD 0)
    (hnot : m ∉ st.fetches) :
    m ∉ (processCandidates fetch cands st).fetches := by
  induction cands generalizing st with
  | nil => simpa [processCandidates] using hnot
  | cons hd tl ih =>
    obtain ⟨mid, top⟩ := hd
    by_cases hq : mid = m
    · subst hq
      simp only [processCandidates, hm]
      cases ht : truthyBoolOpt r.transcript_processed
      · simp only [ht, Bool.false_eq_true, if_false]
        rw [if_pos hc]
        exact ih _ hm hnot
      · simp only [ht, if_true]
        exact ih _ hm hnot
    · have hne : ∀ (mp : Mapping), mget mp m = some (.dict r) →
          ∀ v, mget (mset mp mid v) m = some (.dict r) := by
        intro mp h v
        rw [mget_mset_ne mp m mid v hq]
        exact h
      have hfet : m ∉ st.fetches ++ [mid] := by
        simp only [List.mem_append, List.mem_singleton]
        rintro (h | h)
        · exact hnot h
        · exact hq h.symm
      simp only [processCandidates]
      rcases hg : mget st.mapping mid with _ | e0
      · simp only [hg]
        rw [mget_mset_self]
        simp only [truthyBoolOpt, Bool.false_eq_true, if_false]
        rw [if_neg (by simp)]
        cases hfr : fetch mid <;>
          exact ih _ (hne _ (hne _ hm _) _) hfet
      · cases e0 with
        | scalar v =>
          simp only [hg]
          rw [mget_mset_self]
          simp only [truthyBoolOpt, Bool.false_eq_true, if_false]
          rw [if_neg (by simp)]
          cases hfr : fetch mid <;>
            exact ih _ (hne _ (hne _ hm _) _) hfet
        | dict r0 =>
          simp only [hg]
          cases ht : truthyBoolOpt r0.transcript_processed
          · simp only [ht, Bool.false_eq_true, if_false]
            by_cases hcc : (10 : Int) ≤ r0.upload_attempt_count.getD 0
            · rw [if_pos hcc]
              exact ih _ hm hnot
            · rw [if_neg hcc]
              cases hfr : fetch mid <;>
                exact ih _ (hne _ hm _) hfet
          · simp only [ht, if_true]
            exact ih _ hm hnot

/-- C8 witness: the amended theorem at a concrete tier-2 candidate list. -/
theorem c8_tier2_retry_ceiling_witness :
    "77" ∉ (processCandidates fetchOk [("77", "T")]
      { mapping := [("77", .dict recCeil)], saves := [], fetches := [] }).fetches :=
  c8_tier2_retry_ceiling fetchOk [("77", "T")]
    { mapping := [("77", .dict recCeil)], saves := [], fetches := [] }
    "77" recCeil rfl (by decide) (by simp)

/-- C9 counterexample: a forced harvest of a meeting with no discourse-topic
mapping does not fail the invocation: the missing-mapping error raised
internally is a `ValueError` (not a `LookupError`), and the forced-mode
`except Exception` handler catches and logs it, so the run returns
normally with nothing fetched or persisted. -/
theorem c9_counterexample_forced_error_swallowed :
    ∃ r, poll_recordings_main (some "99") [] [] 0 fetchOk = .ok r ∧
      r.fetches = [] ∧ r.saves = [] ∧
      r.forcedErr =
        some (.valueError "No Discourse topic mapping found for meeting 99") := by
  exact ⟨_, rfl, rfl, rfl, rfl⟩

/-- C9 (amended): forced-mode harvest with no discourse-topic mapping raises
a missing-mapping `ValueError` that its own handler catches and logs; the
invocation returns normally without fetching or persisting anything.  When
a record with a truthy topic id exists, it fetches and posts the
transcript and persists a minimized record containing only
`discourse_topic_id` and `issue_title`. -/
theorem c9_forced_mode_behavior :
    (∀ (fid : String) (map0 : Mapping) (recs : List ZoomRec) (now : Nat)
       (fetch : String → Except PyErr Int),
      fid ≠ "" → pyStrip fid ≠ "" →
      truthyValOpt (storedTopicOf map0 (pyStrip fid)) = false →
      poll_recordings_main (some fid) map0 recs now fetch =
        .ok { fetches := [], saves := [], mappingFinal := map0,
              forcedErr := some (.valueError
                ("No Discourse topic mapping found for meeting " ++ pyStrip fid)) })
    ∧ (∀ (fid : String) (map0 : Mapping) (recs : List ZoomRec) (now : Nat)
       (fetch : String → Except PyErr Int) (r : Record) (tid : Int),
      fid ≠ "" → pyStrip fid ≠ "" →
      mget map0 (pyStrip fid) = some (.dict r) →
      truthyValOpt r.discourse_topic_id = true →
      fetch (pyStrip fid) = .ok tid →
      poll_recordings_main (some fid) map0 recs now fetch =
        .ok { fetches := [pyStrip fid],
              saves := [mset map0 (pyStrip fid) (.dict
                { discourse_topic_id := r.discourse_topic_id,
                  issue_title := some (r.issue_title.getD ("Meeting " ++ pyStrip fid)) })],
              mappingFinal := mset map0 (pyStrip fid) (.dict
                { discourse_topic_id := r.discourse_topic_id,
                  issue_title := some (r.issue_title.getD ("Meeting " ++ pyStrip fid)) }),
              forcedErr := none }) := by
  constructor
  · intro fid map0 recs now fetch h1 h2 h3
    simp only [poll_recordings_main]
    rw [if_pos h1, if_pos h2]
    simp only [forcedRun, h3, Bool.not_false, if_true]
  · intro fid map0 recs now fetch r tid h1 h2 hm htr hfetch
    have hst : storedTopicOf map0 (pyStrip fid) = r.discourse_topic_id := by
      simp only [storedTopicOf, hm]
    simp only [poll_recordings_main]
    rw [if_pos h1, if_pos h2]
    simp only [forcedRun, hst, htr, Bool.not_true, Bool.false_eq_true, if_false,
      hfetch, hm]

/-- C9 witness: both branches at concrete stores. -/
theorem c9_forced_mode_behavior_witness :
    poll_recordings_main (some "98") [] [] 0 fetchOk =
      .ok { fetches := [], saves := [], mappingFinal := [],
            forcedErr := some (.valueError
              "No Discourse topic mapping found for meeting 98") } ∧
    poll_recordings_main (some "55") [("55", .dict rec55)] [] 0 fetchOk =
      .ok { fetches := ["55"],
            saves := [mset [("55", .dict rec55)] "55" (.dict
              { discourse_topic_id := rec55.discourse_topic_id,
                issue_title := some (rec55.issue_title.getD ("Meeting " ++ "55")) })],
            mappingFinal := mset [("55", .dict rec55)] "55" (.dict
              { discourse_topic_id := rec55.discourse_topic_id,
                issue_title := some (rec55.issue_title.getD ("Meeting " ++ "55")) }),
            forcedErr := none } :=
  ⟨c9_forced_mode_behavior.1 "98" [] [] 0 fetchOk (by decide) (by decide) rfl,
   c9_forced_mode_behavior.2 "55" [("55", .dict rec55)] [] 0 fetchOk rec55 77
     (by decide) (by decide) rfl rfl rfl⟩
